import Mathlib

/-! Shallow embedding of the InvenTree seeding scripts of this repository
(seed_categories.py, seed_locations.py, seed_parts.py, seed_tenants.py):
the data model, the modelled remote API, and the seeding algorithms,
together with theorems checking the claims of the specification. -/

namespace Seeding

/-- Lowercase a string (Python str.lower, applied to the ASCII error bodies involved). -/
def lowerStr (s : String) : String := String.mk (s.data.map Char.toLower)

/-- Substring occurrence of needle in hay, on character lists. -/
def subAt (needle : List Char) : List Char → Bool
  | [] => needle.isEmpty
  | c :: rest => needle.isPrefixOf (c :: rest) || subAt needle rest

/-- Python substring test (needle in hay). -/
def strContains (hay needle : String) : Bool := subAt needle.toList hay.toList

/-- A remote resource as stored by the modelled API: server-assigned primary key,
name, optional parent link, description. -/
structure RemoteResource where
  pk : Nat
  name : String
  parent : Option Nat
  description : String
deriving DecidableEq

/-- Body of a creation (POST) response: the created resource on 201, an error text otherwise. -/
inductive CreateBody
  | res : RemoteResource → CreateBody
  | err : String → CreateBody
deriving DecidableEq

/-- A creation (POST) response. -/
structure CreateResp where
  status : Nat
  body : CreateBody
deriving DecidableEq

/-- Text the scripts see as str(error) for an error body. -/
def CreateBody.errText : CreateBody → String
  | .err s => s
  | .res _ => ""

/-- Body of a lookup (GET) response: either a plain JSON list, or a paginated
dict carrying a results list. -/
inductive LookupBody
  | list : List RemoteResource → LookupBody
  | paged : List RemoteResource → LookupBody
deriving DecidableEq

/-- A lookup (GET) response. -/
structure LookupResp where
  status : Nat
  body : LookupBody
deriving DecidableEq

/-- Outcome of running a piece of the Python code: a normal return value,
or an uncaught exception. -/
inductive PyResult (α : Type)
  | ok : α → PyResult α
  | exn : PyResult α
deriving DecidableEq

/-- State of the modelled remote API for one resource kind: created resources, the
next primary key, whether requests authenticate, and names whose creation the server
rejects with a 500 (modelling non-conflict errors). Creating a name that is already
present answers 400 with an already-exists body. -/
structure ApiState where
  resources : List RemoteResource
  nextPk : Nat
  authOk : Bool
  failNames : List String
deriving DecidableEq

/-- POST to a creation endpoint of the modelled API. -/
def apiCreate (s : ApiState) (name desc : String) (parent : Option Nat) :
    ApiState × CreateResp :=
  if s.authOk = false then
    (s, ⟨401, .err ("Authentication credentials were not provided.")⟩)
  else if s.failNames.contains name then
    (s, ⟨500, .err ("Internal server error")⟩)
  else if s.resources.any (fun r => r.name == name) then
    (s, ⟨400, .err ("Stock location with this name already exists")⟩)
  else
    let r : RemoteResource := ⟨s.nextPk, name, parent, desc⟩
    ({ s with resources := s.resources ++ [r], nextPk := s.nextPk + 1 }, ⟨201, .res r⟩)

/-- GET on a list endpoint filtered by exact name (the params name query). -/
def apiLookupByName (s : ApiState) (name : String) : LookupResp :=
  ⟨200, .list (s.resources.filter (fun r => r.name == name))⟩

/-- Python dict assignment d[k] = v on an insertion-ordered association list. -/
def insertCache (c : List (String × Nat)) (k : String) (v : Nat) : List (String × Nat) :=
  match c with
  | [] => [(k, v)]
  | p :: t => if p.1 == k then (k, v) :: t else p :: insertCache t k v

/-- Python dict lookup d.get(k) on an insertion-ordered association list. -/
def lookupCache (c : List (String × Nat)) (k : String) : Option Nat :=
  match c with
  | [] => none
  | p :: t => if p.1 == k then some p.2 else lookupCache t k

/-- Conflict sniffing of seed_locations.py line 106: already-exists substring on the
lowercased error body. -/
def detectConflictLoc (errText : String) : Bool :=
  strContains (lowerStr errText) ("already exists")

/-- Conflict sniffing of seed_categories.py line 105 and seed_parts.py line 182:
already-exists or unique substring on the lowercased error body. -/
def detectConflictFull (errText : String) : Bool :=
  strContains (lowerStr errText) ("already exists") || strContains (lowerStr errText) ("unique")

/-- CategorySeeder._get_existing_category (seed_categories.py lines 112-124) as a function
of the GET response it receives. On a paginated body the script indexes element 0 of the
results list, which raises IndexError when that list is empty; on a plain list body an
empty list is falsy and the script returns None normally. -/
def getExistingCatR (resp : LookupResp) : PyResult (Option RemoteResource) :=
  if resp.status == 200 then
    match resp.body with
    | .list [] => .ok none
    | .list (x :: _) => .ok (some x)
    | .paged [] => .exn
    | .paged (x :: _) => .ok (some x)
  else .ok none

/-- InvenTreeSeeder._get_existing_location (seed_locations.py lines 113-126) as a function
of the GET response; it also caches the found pk under the requested name. The paged-empty
case raises IndexError exactly as in getExistingCatR. -/
def getExistingLocR (name : String) (resp : LookupResp) (cache : List (String × Nat)) :
    List (String × Nat) × PyResult (Option RemoteResource) :=
  if resp.status == 200 then
    match resp.body with
    | .list [] => (cache, .ok none)
    | .list (x :: _) => (insertCache cache name x.pk, .ok (some x))
    | .paged [] => (cache, .exn)
    | .paged (x :: _) => (insertCache cache name x.pk, .ok (some x))
  else (cache, .ok none)

/-- CategorySeeder.create_category (seed_categories.py lines 87-110) as a function of the
POST response and of the GET response its conflict fallback would receive. Ill-formed 201
bodies (no resource) are not modelled and map to a plain failure. -/
def createCategoryR (createResp : CreateResp) (lookupResp : LookupResp) :
    PyResult (Option RemoteResource) :=
  if createResp.status == 201 then
    match createResp.body with
    | .res r => .ok (some r)
    | .err _ => .ok none
  else if createResp.status == 400 && detectConflictFull createResp.body.errText then
    getExistingCatR lookupResp
  else .ok none

/-- InvenTreeSeeder.create_location (seed_locations.py lines 84-111) as a function of the
POST response, the conflict-fallback GET response, and the name cache. On 201 the script
indexes the pk field of the returned resource. -/
def createLocationR (name : String) (createResp : CreateResp) (lookupResp : LookupResp)
    (cache : List (String × Nat)) : List (String × Nat) × PyResult (Option RemoteResource) :=
  if createResp.status == 201 then
    match createResp.body with
    | .res r => (insertCache cache name r.pk, .ok (some r))
    | .err _ => (cache, .exn)
  else if createResp.status == 400 && detectConflictLoc createResp.body.errText then
    getExistingLocR name lookupResp cache
  else (cache, .ok none)

/-- PartsSeeder.create_part (seed_parts.py lines 164-185) as a function of the POST
response: success on 201, or on a 400 whose body matches the conflict substrings; in the
conflict case no lookup is performed and no identifier is obtained. -/
def createPartR (createResp : CreateResp) : Bool :=
  if createResp.status == 201 then true
  else if createResp.status == 400 && detectConflictFull createResp.body.errText then true
  else false

/-- Warehouse structure constants (seed_locations.py lines 29-32). -/
def ZONES : List String := ["A", "B"]

/-- Columns 1 to 4 per zone (seed_locations.py line 30). -/
def COLUMNS_PER_ZONE : Nat := 4

/-- Levels 1 (bottom) to 7 (top) (seed_locations.py line 31). -/
def LEVELS : Nat := 7

/-- The column exempted from the A/B bin split (seed_locations.py line 32). -/
def POWER_SUPPLY_COLUMN : String := "B-4"

/-- Python range(1, n + 1). -/
def rangeFromOne (n : Nat) : List Nat := (List.range n).map (fun i => i + 1)

/-- Call-site tag for a create_location call: the tree level it builds. -/
inductive LocKind
  | root | zone | column | shelf | bin
deriving DecidableEq, BEq

/-- Record of one creation call: tag, requested name, description, payload parent. -/
structure LocCall where
  kind : LocKind
  name : String
  desc : String
  parent : Option Nat
deriving DecidableEq

/-- State of one InvenTreeSeeder process: the remote API, the per-process
location_cache, and the trace of creation calls issued so far. -/
structure SeederState where
  api : ApiState
  cache : List (String × Nat)
  trace : List LocCall
deriving DecidableEq

/-- InvenTreeSeeder._get_existing_location against the modelled API, whose GET answers
200 with the plain list of resources matching the name. -/
def getExistingLocation (st : SeederState) (name : String) :
    SeederState × Option RemoteResource :=
  match st.api.resources.filter (fun r => r.name == name) with
  | [] => (st, none)
  | x :: _ => ({ st with cache := insertCache st.cache name x.pk }, some x)

/-- Python truthiness of parent_id (seed_locations.py line 91): the parent field enters
the payload only when parent_id is neither None nor 0. -/
def payloadParent (parentId : Option Nat) : Option Nat :=
  match parentId with
  | some p => if p == 0 then none else some p
  | none => none

/-- InvenTreeSeeder.create_location (seed_locations.py lines 84-111) against the modelled
API. The kind argument only tags the trace record with the call site. Python includes the
parent field in the payload only when parent_id is truthy (line 91). -/
def createLocation (st : SeederState) (kind : LocKind) (name desc : String)
    (parentId : Option Nat) : SeederState × Option RemoteResource :=
  let pr := apiCreate st.api name desc (payloadParent parentId)
  let st1 : SeederState :=
    { st with api := pr.1, trace := st.trace ++ [⟨kind, name, desc, payloadParent parentId⟩] }
  if pr.2.status == 201 then
    match pr.2.body with
    | .res r => ({ st1 with cache := insertCache st1.cache name r.pk }, some r)
    | .err _ => (st1, none)
  else if pr.2.status == 400 && detectConflictLoc pr.2.body.errText then
    getExistingLocation st1 name
  else (st1, none)

/-- Bin creation for one shelf (seed_locations.py lines 198-211): bin A then bin B. -/
def seedBins (st : SeederState) (shelfName : String) (shelfPk : Nat) : SeederState :=
  let r1 := createLocation st .bin (shelfName ++ "-A")
    ("IN - New Stock (FIFO: Use Last)") (some shelfPk)
  let r2 := createLocation r1.1 .bin (shelfName ++ "-B")
    ("OUT - Old Stock (FIFO: Use First)") (some shelfPk)
  r2.1

/-- One shelf level (seed_locations.py lines 183-215): create the shelf; on failure
continue, otherwise create the two bins unless the column is the power-supply column. -/
def seedShelf (columnName : String) (isPower : Bool) (columnPk : Nat)
    (st : SeederState) (level : Nat) : SeederState :=
  let shelfName := columnName ++ "-" ++ toString level
  let r := createLocation st .shelf shelfName
    ("Level " ++ toString level ++ " (1=Bottom, 7=Top)") (some columnPk)
  match r.2 with
  | none => r.1
  | some shelf => if isPower then r.1 else seedBins r.1 shelfName shelf.pk

/-- One column (seed_locations.py lines 164-215): create the column; on failure continue,
otherwise create its seven shelf levels. -/
def seedColumn (zone : String) (zonePk : Nat) (st : SeederState) (col : Nat) : SeederState :=
  let columnName := zone ++ "-" ++ toString col
  let isPower := columnName == POWER_SUPPLY_COLUMN
  let colDesc :=
    if isPower then ("Power Supplies (Solid)")
    else ("Column " ++ toString col ++ " in Zone " ++ zone)
  let r := createLocation st .column columnName colDesc (some zonePk)
  match r.2 with
  | none => r.1
  | some c => (rangeFromOne LEVELS).foldl (seedShelf columnName isPower c.pk) r.1

/-- One zone (seed_locations.py lines 149-215): create the zone; on failure continue,
otherwise create its four columns. -/
def seedZone (warehousePk : Nat) (st : SeederState) (zone : String) : SeederState :=
  let zdesc := "Zone " ++ zone ++ " - " ++
    (if zone == "A" then ("Standard Components") else ("Standard + Power Supplies"))
  let r := createLocation st .zone ("Zone-" ++ zone) zdesc (some warehousePk)
  match r.2 with
  | none => r.1
  | some z => (rangeFromOne COLUMNS_PER_ZONE).foldl (seedColumn zone z.pk) r.1

/-- InvenTreeSeeder.seed_warehouse (seed_locations.py lines 128-234): create the root
warehouse (aborting with failure when that returns nothing), then every zone; returns
success once the loop finishes. -/
def seedWarehouse (st : SeederState) : SeederState × Bool :=
  let r := createLocation st .root ("Warehouse")
    ("Main warehouse - Lean Inventory System") none
  match r.2 with
  | none => (r.1, false)
  | some w => (ZONES.foldl (seedZone w.pk) r.1, true)

/-- A fresh API for one resource kind, with a chosen set of server-failing names. -/
def initApi (fails : List String) : ApiState := ⟨[], 1, true, fails⟩

/-- A fresh seeder process against a fresh API. -/
def initSeeder (fails : List String) : SeederState := ⟨initApi fails, [], []⟩

/-- The six default categories of seed_categories.py lines 31-38. -/
def DEFAULT_CATEGORIES : List (String × String) :=
  [("GPU", "Graphics Processing Units - NVIDIA, AMD, Intel Arc"),
   ("CPU", "Central Processing Units - Intel, AMD"),
   ("PSU", "Power Supply Units - Modular, Semi-Modular, Non-Modular"),
   ("Motherboard", "Motherboards - ATX, Micro-ATX, Mini-ITX"),
   ("SSD", "Solid State Drives - NVMe, SATA, M.2"),
   ("RAM", "Random Access Memory - DDR4, DDR5")]

/-- CategorySeeder.create_category (seed_categories.py lines 87-110) against the modelled
API; the category seeder keeps no cache. The exception branch of the fallback is
unreachable here because the modelled GET answers plain lists. -/
def createCategory (api : ApiState) (name desc : String) : ApiState × Option RemoteResource :=
  let pr := apiCreate api name desc none
  if pr.2.status == 201 then
    match pr.2.body with
    | .res r => (pr.1, some r)
    | .err _ => (pr.1, none)
  else if pr.2.status == 400 && detectConflictFull pr.2.body.errText then
    match getExistingCatR (apiLookupByName pr.1 name) with
    | .ok r => (pr.1, r)
    | .exn => (pr.1, none)
  else (pr.1, none)

/-- CategorySeeder.seed_categories (seed_categories.py lines 126-143): create every
default category, counting truthy results, and return True unconditionally.
Result: (final API, created count, return value). -/
def seedCategories (api : ApiState) : ApiState × Nat × Bool :=
  let r := DEFAULT_CATEGORIES.foldl
    (fun acc cat =>
      let cr := createCategory acc.1 cat.1 cat.2
      match cr.2 with
      | some _ => (cr.1, acc.2 + 1)
      | none => (cr.1, acc.2)) (api, 0)
  (r.1, r.2, true)

/-- State of one PartsSeeder process: category API, part API, and the categories
name-to-pk cache. -/
structure PartsState where
  catApi : ApiState
  partApi : ApiState
  categories : List (String × Nat)
deriving DecidableEq

/-- PartsSeeder.load_categories (seed_parts.py lines 130-141): list the category endpoint
and cache every returned name under its pk. -/
def loadCategories (pst : PartsState) : PartsState :=
  { pst with categories :=
      pst.catApi.resources.foldl (fun c r => insertCache c r.name r.pk) pst.categories }

/-- PartsSeeder.create_category (seed_parts.py lines 143-162) against the modelled API:
answer from the cache when present; otherwise POST, cache on 201, and on any 400 reload
the whole cache and answer from it. -/
def partsCreateCategory (pst : PartsState) (name desc : String) : PartsState × Option Nat :=
  match lookupCache pst.categories name with
  | some i => (pst, some i)
  | none =>
    let pr := apiCreate pst.catApi name desc none
    let pst1 := { pst with catApi := pr.1 }
    if pr.2.status == 201 then
      match pr.2.body with
      | .res r => ({ pst1 with categories := insertCache pst1.categories name r.pk }, some r.pk)
      | .err _ => (pst1, none)
    else if pr.2.status == 400 then
      let pst2 := loadCategories pst1
      (pst2, lookupCache pst2.categories name)
    else (pst1, none)

/-- PartsSeeder.create_part (seed_parts.py lines 164-185) against the modelled API. The
payload extras (active, component, purchaseable, minimum_stock) do not affect the
modelled state; the category id is stored as the parent link of the part. -/
def partsCreatePart (pst : PartsState) (name desc : String) (catId : Nat) :
    PartsState × Bool :=
  let pr := apiCreate pst.partApi name desc (some catId)
  let pst1 := { pst with partApi := pr.1 }
  if pr.2.status == 201 then (pst1, true)
  else if pr.2.status == 400 && detectConflictFull pr.2.body.errText then (pst1, true)
  else (pst1, false)

/-- One PartsSeeder operation touching the process state. -/
inductive PartsOp
  | load
  | createCategory (name desc : String)
  | createPart (name desc : String) (catId : Nat)
deriving DecidableEq

/-- Apply one PartsSeeder operation. -/
def applyPartsOp (pst : PartsState) : PartsOp → PartsState
  | .load => loadCategories pst
  | .createCategory n d => (partsCreateCategory pst n d).1
  | .createPart n d c => (partsCreatePart pst n d c).1

/-- Run a sequence of PartsSeeder operations. -/
def runPartsOps (pst : PartsState) (ops : List PartsOp) : PartsState :=
  ops.foldl applyPartsOp pst

/-- Run a sequence of create_location calls on one InvenTreeSeeder process. -/
def runLocCalls (st : SeederState) (calls : List LocCall) : SeederState :=
  calls.foldl (fun acc c => (createLocation acc c.kind c.name c.desc c.parent).1) st

/-- State of the remote API and process of the tenant script: user groups, stock locations,
next pk, server-failing names, and the trace of requested location names. -/
structure TenantState where
  groups : List RemoteResource
  locations : List RemoteResource
  nextPk : Nat
  failNames : List String
  trace : List String
deriving DecidableEq

/-- GET user group list filtered by exact name. -/
def tenantGroupsByName (ts : TenantState) (name : String) : List RemoteResource :=
  ts.groups.filter (fun g => g.name == name)

/-- TenantSeeder.get_or_create_group (seed_tenants.py lines 68-92): look the group up by
name first; create it only when no listed group carries the name. -/
def getOrCreateGroup (ts : TenantState) (name : String) : TenantState × Option Nat :=
  match (tenantGroupsByName ts name).find? (fun g => g.name == name) with
  | some g => (ts, some g.pk)
  | none =>
    if ts.failNames.contains name then (ts, none)
    else if ts.groups.any (fun g => g.name == name) then (ts, none)
    else
      let g : RemoteResource := ⟨ts.nextPk, name, none, ""⟩
      ({ ts with groups := ts.groups ++ [g], nextPk := ts.nextPk + 1 }, some g.pk)

/-- GET stock location list filtered by exact name and, when given, parent. -/
def tenantLocsByName (ts : TenantState) (name : String) (parent : Option Nat) :
    List RemoteResource :=
  ts.locations.filter (fun r => r.name == name &&
    (match parent with
     | none => true
     | some p => r.parent == some p))

/-- TenantSeeder.get_or_create_location (seed_tenants.py lines 94-125): look up by name
(and by parent when truthy) first; create only when nothing listed carries the name.
The trace records the requested name of every call. -/
def tGetOrCreateLocation (ts : TenantState) (name desc : String) (parent : Option Nat) :
    TenantState × Option Nat :=
  let pparam :=
    match parent with
    | some p => if p == 0 then none else some p
    | none => none
  let ts1 : TenantState := { ts with trace := ts.trace ++ [name] }
  match (tenantLocsByName ts1 name pparam).find? (fun r => r.name == name) with
  | some r => (ts1, some r.pk)
  | none =>
    if ts1.failNames.contains name then (ts1, none)
    else if ts1.locations.any (fun r => r.name == name) then (ts1, none)
    else
      let r : RemoteResource := ⟨ts1.nextPk, name, pparam, desc⟩
      ({ ts1 with locations := ts1.locations ++ [r], nextPk := ts1.nextPk + 1 }, some r.pk)

/-- The hard-coded sub-location grid of seed_tenants.py lines 162-163. -/
def TENANT_ZONES : List String := ["A", "B"]

/-- Four columns per tenant zone (seed_tenants.py line 163). -/
def TENANT_COLUMNS : Nat := 4

/-- TenantSeeder.seed_tenant (seed_tenants.py lines 144-175): tenant group, root
location, and on success the grid of sub-locations; returns True unconditionally. -/
def seedTenant (name displayName desc : String) (ts : TenantState) : TenantState × Bool :=
  let r1 := getOrCreateGroup ts ("tenant_" ++ name)
  let r2 := tGetOrCreateLocation r1.1 (displayName ++ " Warehouse") desc none
  let ts3 :=
    match r2.2 with
    | none => r2.1
    | some lid =>
      TENANT_ZONES.foldl (fun acc z =>
        (rangeFromOne TENANT_COLUMNS).foldl (fun acc2 c =>
          (tGetOrCreateLocation acc2 (z ++ "-" ++ toString c) ("") (some lid)).1) acc) r2.1
  (ts3, true)

/-- The default demo tenant of seed_tenants.py lines 21-30. -/
def seedTenantDemo (ts : TenantState) : TenantState × Bool :=
  seedTenant ("demo") ("Demo Tenant") ("Default demo tenant for testing") ts

/-- Accepted readiness statuses of wait_for_api (200, 401, 403). -/
def acceptedStatus (code : Nat) : Bool := code == 200 || code == 401 || code == 403

/-- Acceptance of one probe outcome; a connection error (none) is never accepted. -/
def probeAccepted (accept : Nat → Bool) : Option Nat → Bool
  | some code => accept code
  | none => false

/-- The bounded retry loop shared by wait_for_api (seed_categories.py lines 54-71,
seed_locations.py lines 49-66, seed_parts.py lines 97-114) and by the inline tenant poll
(seed_tenants.py lines 185-196): probe from attempt index i with the given budget;
result is (success, attempts made, fixed-delay sleeps performed). An unaccepted attempt
is followed by one sleep; an accepted attempt returns at once. -/
def waitLoop (probe : Nat → Option Nat) (accept : Nat → Bool) : Nat → Nat → Bool × Nat × Nat
  | _, 0 => (false, 0, 0)
  | i, fuel + 1 =>
    if probeAccepted accept (probe i) then (true, 1, 0)
    else
      let r := waitLoop probe accept (i + 1) fuel
      (r.1, r.2.1 + 1, r.2.2 + 1)

/-- wait_for_api with a retry budget: accepted statuses are 200, 401 and 403. -/
def waitForApi (probe : Nat → Option Nat) (maxRetries : Nat) : Bool × Nat × Nat :=
  waitLoop probe acceptedStatus 0 maxRetries

/-- The inline readiness poll of the tenant script (seed_tenants.py lines 185-196): accepts
only status 200 and makes at most 12 attempts. -/
def tenantPoll (probe : Nat → Option Nat) : Bool × Nat × Nat :=
  waitLoop probe (fun code => code == 200) 0 12

/-- TenantSeeder.authenticate (seed_tenants.py lines 37-66): token auth, falling back to
basic auth; fails only when both fail. -/
def authenticate (tokenOk basicOk : Bool) : Bool := tokenOk || basicOk

/-- Exit code of seed_categories.py main (lines 146-174): 1 when the poll fails;
otherwise get_api_token runs (its failure only falls back to basic auth and is not
consulted), the seeding runs, and the process exits 0 when seed_categories is truthy. -/
def mainCategoriesExit (probe : Nat → Option Nat) (api : ApiState) : Nat :=
  if (waitForApi probe 30).1 then
    if (seedCategories api).2.2 then 0 else 1
  else 1

/-- Exit code of seed_locations.py main (lines 237-267): 1 when the poll fails, 1 when
seed_warehouse returns False, 0 otherwise. -/
def mainLocationsExit (probe : Nat → Option Nat) (st : SeederState) : Nat :=
  if (waitForApi probe 30).1 then
    if (seedWarehouse st).2 then 0 else 1
  else 1

/-- Exit code of seed_parts.py main (lines 229-254): 1 when the poll fails; after that
the script runs to the end unconditionally and the process exits 0. -/
def mainPartsExit (probe : Nat → Option Nat) (pst : PartsState) : Nat :=
  if (waitForApi probe 15).1 then
    let _ := loadCategories pst
    0
  else 1

/-- TenantSeeder.run (seed_tenants.py lines 177-211): inline poll (12 tries, status 200
only), authenticate, seed the default tenant, report success. -/
def tenantRun (probe : Nat → Option Nat) (tokenOk basicOk : Bool) (ts : TenantState) :
    TenantState × Bool :=
  if (tenantPoll probe).1 = false then (ts, false)
  else if authenticate tokenOk basicOk = false then (ts, false)
  else ((seedTenantDemo ts).1, true)

/-- Exit code of seed_tenants.py (lines 214-226): 0 when run returns True, else 1. -/
def mainTenantsExit (probe : Nat → Option Nat) (tokenOk basicOk : Bool)
    (ts : TenantState) : Nat :=
  if (tenantRun probe tokenOk basicOk ts).2 then 0 else 1

/-- Positional column name (seed_locations.py line 165). -/
def columnNameOf (zone : String) (col : Nat) : String := zone ++ "-" ++ toString col

/-- Positional shelf name (seed_locations.py line 184). -/
def shelfNameOf (zone : String) (col level : Nat) : String :=
  columnNameOf zone col ++ "-" ++ toString level

/-- Positional bin name (seed_locations.py lines 201 and 208); side is A or B. -/
def binNameOf (zone : String) (col level : Nat) (side : String) : String :=
  shelfNameOf zone col level ++ "-" ++ side

/-- The deterministic name sequence of one warehouse run, generated purely from grid
positions in traversal order. -/
def warehouseNameSeq : List String :=
  ("Warehouse") :: ZONES.flatMap (fun z =>
    ("Zone-" ++ z) :: (rangeFromOne COLUMNS_PER_ZONE).flatMap (fun c =>
      columnNameOf z c :: (rangeFromOne LEVELS).flatMap (fun l =>
        if columnNameOf z c == POWER_SUPPLY_COLUMN then [shelfNameOf z c l]
        else [shelfNameOf z c l, binNameOf z c l ("A"), binNameOf z c l ("B")])))

/-- The deterministic tenant location name sequence (seed_tenants.py lines 157-167),
generated purely from grid positions. -/
def tenantNameSeq : List String :=
  ("Demo Tenant Warehouse") :: TENANT_ZONES.flatMap (fun z =>
    (rangeFromOne TENANT_COLUMNS).map (fun c => z ++ "-" ++ toString c))

/-- Number of A/B bin creation calls in a trace. -/
def binCallCount (tr : List LocCall) : Nat :=
  (tr.filter (fun c => c.kind == LocKind.bin)).length

/-- Name of the column a shelf call was issued under, resolved through its parent pk. -/
def shelfColumnName (st : SeederState) (c : LocCall) : Option String :=
  match c.parent with
  | none => none
  | some p => (st.api.resources.find? (fun r => r.pk == p)).map (fun r => r.name)

/-- Number of shelf creation calls lying in the exempted power-supply column. -/
def exemptShelfCount (st : SeederState) : Nat :=
  (st.trace.filter (fun c =>
    c.kind == LocKind.shelf && shelfColumnName st c == some POWER_SUPPLY_COLUMN)).length

/-- Every shelf call of the run received exactly two bin children when its column is not
the power-supply column, and none when it is. -/
def binSplitOk (st : SeederState) : Bool :=
  (st.trace.filter (fun c => c.kind == LocKind.shelf)).all (fun sc =>
    match shelfColumnName st sc with
    | none => false
    | some colName =>
      match st.api.resources.find? (fun r => r.name == sc.name) with
      | none => false
      | some shelf =>
        let cnt := (st.trace.filter (fun c =>
          c.kind == LocKind.bin && c.parent == some shelf.pk)).length
        if colName == POWER_SUPPLY_COLUMN then cnt == 0 else cnt == 2)

/-- First warehouse run: a fresh seeder process against an empty healthy API. -/
def warehouseRun1 : SeederState := (seedWarehouse (initSeeder [])).1

/-- Second warehouse run: a fresh seeder process (fresh cache and trace) against the API
state the first run left behind. -/
def warehouseRun2 : SeederState :=
  (seedWarehouse { warehouseRun1 with cache := [], trace := [] }).1

/-- A fresh tenant API with a chosen set of server-failing names. -/
def initTenant (fails : List String) : TenantState := ⟨[], [], 1, fails, []⟩

/-- First tenant seeding run against an empty healthy API. -/
def tenantSeedRun1 : TenantState := (seedTenantDemo (initTenant [])).1

/-- Second tenant seeding run (fresh process trace) against the API state the first run
left behind. -/
def tenantSeedRun2 : TenantState := (seedTenantDemo { tenantSeedRun1 with trace := [] }).1

/-- The API state seen by a process whose credentials are wrong: token auth and basic
auth both fail, every request answers 401. -/
def authFailApi : ApiState := { initApi [] with authOk := false }

/-- Consistency of an InvenTreeSeeder process with its API: every cache entry matches a
stored resource, and stored names are pairwise distinct. -/
def cacheConsistent (st : SeederState) : Prop :=
  (∀ p ∈ st.cache, ∃ r ∈ st.api.resources, r.name = p.1 ∧ r.pk = p.2) ∧
  (st.api.resources.map (fun r => r.name)).Nodup

/-- Consistency of a PartsSeeder process with its category API: every categories-cache
entry matches a stored category, and stored category names are pairwise distinct. -/
def partsCacheConsistent (pst : PartsState) : Prop :=
  (∀ p ∈ pst.categories, ∃ r ∈ pst.catApi.resources, r.name = p.1 ∧ r.pk = p.2) ∧
  (pst.catApi.resources.map (fun r => r.name)).Nodup

instance (st : SeederState) : Decidable (cacheConsistent st) := by
  unfold cacheConsistent; infer_instance

instance (pst : PartsState) : Decidable (partsCacheConsistent pst) := by
  unfold partsCacheConsistent; infer_instance

set_option maxRecDepth 1000000

set_option maxHeartbeats 4000000

/-- A retry loop whose probes are all rejected makes exactly fuel attempts, sleeping
after each, and fails. -/
theorem waitLoop_all_reject (probe : Nat → Option Nat) (accept : Nat → Bool) :
    ∀ fuel i, (∀ k, k < fuel → probeAccepted accept (probe (i + k)) = false) →
    waitLoop probe accept i fuel = (false, fuel, fuel) := by
  intro fuel
  induction fuel with
  | zero => intro i _; rfl
  | succ n ih =>
    intro i h
    have h0 : probeAccepted accept (probe i) = false := by
      have := h 0 (Nat.succ_pos n)
      simpa using this
    have hrest : ∀ k, k < n → probeAccepted accept (probe (i + 1 + k)) = false := by
      intro k hk
      have := h (k + 1) (Nat.succ_lt_succ hk)
      simpa [Nat.add_assoc, Nat.add_comm, Nat.add_left_comm] using this
    simp [waitLoop, h0, ih (i + 1) hrest]

/-- A retry loop whose first accepted probe is at relative position k within the budget
returns success after exactly k + 1 attempts and k sleeps. -/
theorem waitLoop_first_accept (probe : Nat → Option Nat) (accept : Nat → Bool) :
    ∀ fuel i k, k < fuel → (∀ j, j < k → probeAccepted accept (probe (i + j)) = false) →
    probeAccepted accept (probe (i + k)) = true →
    waitLoop probe accept i fuel = (true, k + 1, k) := by
  intro fuel
  induction fuel with
  | zero => intro i k hk _ _; exact absurd hk (Nat.not_lt_zero k)
  | succ n ih =>
    intro i k hk hbefore hacc
    cases k with
    | zero =>
      have h0 : probeAccepted accept (probe i) = true := by simpa using hacc
      simp [waitLoop, h0]
    | succ m =>
      have h0 : probeAccepted accept (probe i) = false := by
        have := hbefore 0 (Nat.succ_pos m)
        simpa using this
      have hb : ∀ j, j < m → probeAccepted accept (probe (i + 1 + j)) = false := by
        intro j hj
        have := hbefore (j + 1) (Nat.succ_lt_succ hj)
        simpa [Nat.add_assoc, Nat.add_comm, Nat.add_left_comm] using this
      have ha : probeAccepted accept (probe (i + 1 + m)) = true := by
        simpa [Nat.add_assoc, Nat.add_comm, Nat.add_left_comm] using hacc
      simp [waitLoop, h0, ih (i + 1) m (Nat.lt_of_succ_lt_succ hk) hb ha]

/-- seed_categories returns True whatever the API answered. -/
theorem seedCategories_returns_true (api : ApiState) : (seedCategories api).2.2 = true := rfl

/-- seed_tenant returns True whatever the API answered. -/
theorem seedTenant_returns_true (n d s : String) (ts : TenantState) :
    (seedTenant n d s ts).2 = true := rfl

theorem claim5_readiness_amended :
    (∀ (probe : Nat → Option Nat) (maxRetries : Nat),
      (∀ k, k < maxRetries → probeAccepted acceptedStatus (probe k) = false) →
      waitForApi probe maxRetries = (false, maxRetries, maxRetries))
    ∧ (∀ (probe : Nat → Option Nat) (maxRetries k : Nat),
      k < maxRetries →
      (∀ j, j < k → probeAccepted acceptedStatus (probe j) = false) →
      probeAccepted acceptedStatus (probe k) = true →
      waitForApi probe maxRetries = (true, k + 1, k))
    ∧ (∀ (probe : Nat → Option Nat),
      (∀ k, k < 12 → probeAccepted (fun code => code == 200) (probe k) = false) →
      tenantPoll probe = (false, 12, 12))
    ∧ (∀ (probe : Nat → Option Nat) (k : Nat),
      k < 12 →
      (∀ j, j < k → probeAccepted (fun code => code == 200) (probe j) = false) →
      probeAccepted (fun code => code == 200) (probe k) = true →
      tenantPoll probe = (true, k + 1, k)) := by
  refine ⟨?_, ?_, ?_, ?_⟩
  · intro probe m h
    have := waitLoop_all_reject probe acceptedStatus m 0 (by intro k hk; simpa using h k hk)
    simpa [waitForApi] using this
  · intro probe m k hk hb ha
    have := waitLoop_first_accept probe acceptedStatus m 0 k hk
      (by intro j hj; simpa using hb j hj) (by simpa using ha)
    simpa [waitForApi] using this
  · intro probe h
    have := waitLoop_all_reject probe (fun code => code == 200) 12 0
      (by intro k hk; simpa using h k hk)
    simpa [tenantPoll] using this
  · intro probe k hk hb ha
    have := waitLoop_first_accept probe (fun code => code == 200) 12 0 k hk
      (by intro j hj; simpa using hb j hj) (by simpa using ha)
    simpa [tenantPoll] using this

theorem claim5_witness :
    waitForApi (fun _ => some 500) 3 = (false, 3, 3)
    ∧ waitForApi (fun i => if i == 2 then some 200 else none) 5 = (true, 3, 2)
    ∧ tenantPoll (fun _ => some 503) = (false, 12, 12)
    ∧ tenantPoll (fun i => if i == 1 then some 200 else some 401) = (true, 2, 1) :=
  ⟨claim5_readiness_amended.1 _ 3 (by decide),
   claim5_readiness_amended.2.1 _ 5 2 (by decide) (by decide) (by decide),
   claim5_readiness_amended.2.2.1 _ (by decide),
   claim5_readiness_amended.2.2.2 _ 1 (by decide) (by decide) (by decide)⟩

theorem claim7_exit_codes_amended :
    (∀ (probe : Nat → Option Nat) (api : ApiState),
      (∀ k, k < 30 → probeAccepted acceptedStatus (probe k) = false) →
      mainCategoriesExit probe api = 1)
    ∧ (∀ (probe : Nat → Option Nat) (st : SeederState),
      (∀ k, k < 30 → probeAccepted acceptedStatus (probe k) = false) →
      mainLocationsExit probe st = 1)
    ∧ (∀ (probe : Nat → Option Nat) (pst : PartsState),
      (∀ k, k < 15 → probeAccepted acceptedStatus (probe k) = false) →
      mainPartsExit probe pst = 1)
    ∧ (∀ (probe : Nat → Option Nat) (ts : TenantState),
      (∀ k, k < 12 → probeAccepted (fun code => code == 200) (probe k) = false) →
      mainTenantsExit probe true true ts = 1)
    ∧ (∀ (probe : Nat → Option Nat) (ts : TenantState),
      mainTenantsExit probe false false ts = 1)
    ∧ (∀ (probe : Nat → Option Nat) (api : ApiState),
      (waitForApi probe 30).1 = true → mainCategoriesExit probe api = 0)
    ∧ (∀ (probe : Nat → Option Nat) (ts : TenantState),
      (tenantPoll probe).1 = true → mainTenantsExit probe true true ts = 0)
    ∧ mainLocationsExit (fun _ => some 200) (initSeeder []) = 0 := by
  refine ⟨?_, ?_, ?_, ?_, ?_, ?_, ?_, of_decide_eq_true (by rfl)⟩
  · intro probe api h
    have hw := waitLoop_all_reject probe acceptedStatus 30 0
      (by intro k hk; simpa using h k hk)
    simp [mainCategoriesExit, waitForApi, hw]
  · intro probe st h
    have hw := waitLoop_all_reject probe acceptedStatus 30 0
      (by intro k hk; simpa using h k hk)
    simp [mainLocationsExit, waitForApi, hw]
  · intro probe pst h
    have hw := waitLoop_all_reject probe acceptedStatus 15 0
      (by intro k hk; simpa using h k hk)
    simp [mainPartsExit, waitForApi, hw]
  · intro probe ts h
    have hw := waitLoop_all_reject probe (fun code => code == 200) 12 0
      (by intro k hk; simpa using h k hk)
    simp [mainTenantsExit, tenantRun, tenantPoll, hw]
  · intro probe ts
    cases hp : (tenantPoll probe).1 with
    | false => simp [mainTenantsExit, tenantRun, hp]
    | true => simp [mainTenantsExit, tenantRun, hp, authenticate]
  · intro probe api h
    simp [mainCategoriesExit, h, seedCategories_returns_true]
  · intro probe ts h
    simp [mainTenantsExit, tenantRun, h, authenticate]

theorem claim7_counterexample :
    mainCategoriesExit (fun _ => some 200) authFailApi = 0
    ∧ (seedCategories authFailApi).2.1 = 0 :=
  of_decide_eq_true (by rfl)

theorem claim7_witness :
    mainCategoriesExit (fun _ => none) (initApi []) = 1
    ∧ mainLocationsExit (fun _ => none) (initSeeder []) = 1
    ∧ mainPartsExit (fun _ => none) ⟨initApi [], initApi [], []⟩ = 1
    ∧ mainTenantsExit (fun _ => none) true true (initTenant []) = 1
    ∧ mainTenantsExit (fun _ => some 200) false false (initTenant []) = 1
    ∧ mainCategoriesExit (fun _ => some 200) (initApi []) = 0
    ∧ mainTenantsExit (fun _ => some 200) true true (initTenant []) = 0 :=
  ⟨claim7_exit_codes_amended.1 _ _ (by decide),
   claim7_exit_codes_amended.2.1 _ _ (by decide),
   claim7_exit_codes_amended.2.2.1 _ _ (by decide),
   claim7_exit_codes_amended.2.2.2.1 _ _ (by decide),
   claim7_exit_codes_amended.2.2.2.2.1 _ _,
   claim7_exit_codes_amended.2.2.2.2.2.1 _ _ (by decide),
   claim7_exit_codes_amended.2.2.2.2.2.2.1 _ _ (by decide)⟩

theorem claim10_unconditional_success :
    (∀ api : ApiState, (seedCategories api).2.2 = true)
    ∧ (∀ (n d s : String) (ts : TenantState), (seedTenant n d s ts).2 = true)
    ∧ (seedCategories authFailApi).2.1 = 0
    ∧ (seedCategories authFailApi).1.resources = []
    ∧ mainCategoriesExit (fun _ => some 200) authFailApi = 0 :=
  ⟨fun _ => rfl, fun _ _ _ _ => rfl,
   of_decide_eq_true (by rfl), of_decide_eq_true (by rfl), of_decide_eq_true (by rfl)⟩

theorem claim2_conflict_recovery_amended :
    (∀ (body : String) (r : RemoteResource) (rest : List RemoteResource),
      detectConflictFull body = true →
      createCategoryR ⟨400, .err body⟩ ⟨200, .list (r :: rest)⟩ = .ok (some r))
    ∧ (∀ (name body : String) (cache : List (String × Nat)) (r : RemoteResource)
        (rest : List RemoteResource),
      detectConflictLoc body = true →
      createLocationR name ⟨400, .err body⟩ ⟨200, .list (r :: rest)⟩ cache
        = (insertCache cache name r.pk, .ok (some r)))
    ∧ (∀ body : String, detectConflictFull body = true → createPartR ⟨400, .err body⟩ = true)
    ∧ detectConflictLoc ("Ensure this field is unique.") = false := by
  refine ⟨?_, ?_, ?_, of_decide_eq_true (by rfl)⟩
  · intro body r rest h
    simp [createCategoryR, CreateBody.errText, h, getExistingCatR]
  · intro name body cache r rest h
    simp [createLocationR, CreateBody.errText, h, getExistingLocR]
  · intro body h
    simp [createPartR, CreateBody.errText, h]

theorem claim2_witness :
    createCategoryR ⟨400, .err ("category with this name already exists")⟩
      ⟨200, .list [⟨5, "GPU", none, ""⟩]⟩ = .ok (some ⟨5, "GPU", none, ""⟩)
    ∧ createLocationR ("Warehouse")
      ⟨400, .err ("Stock location with this name already exists")⟩
      ⟨200, .list [⟨1, "Warehouse", none, ""⟩]⟩ []
      = (insertCache [] ("Warehouse") 1, .ok (some ⟨1, "Warehouse", none, ""⟩))
    ∧ createPartR ⟨400, .err ("part: unique constraint violated")⟩ = true :=
  ⟨claim2_conflict_recovery_amended.1 _ _ [] (by decide),
   claim2_conflict_recovery_amended.2.1 _ _ [] _ [] (by decide),
   claim2_conflict_recovery_amended.2.2.1 _ (by decide)⟩


theorem lookupCache_insert (c : List (String × Nat)) (k : String) (v : Nat) (n : String) :
    lookupCache (insertCache c k v) n = if n = k then some v else lookupCache c n := by
  induction c with
  | nil =>
    by_cases h : n = k
    · subst h; simp [insertCache, lookupCache]
    · have hk : (k == n) = false := by simp [Ne.symm h]
      simp [insertCache, lookupCache, hk, h]
  | cons p t ih =>
    by_cases hpk : p.1 = k
    · have hb : (p.1 == k) = true := by simp [hpk]
      by_cases h : n = k
      · subst h; simp [insertCache, lookupCache, hb]
      · have hk : (k == n) = false := by simp [Ne.symm h]
        have hpn : (p.1 == n) = false := by simp [hpk, Ne.symm h]
        simp [insertCache, lookupCache, hb, hk, hpn, h]
    · have hb : (p.1 == k) = false := by simp [hpk]
      by_cases h : n = k
      · subst h
        have hpn : (p.1 == n) = false := by simp [hpk]
        simp [insertCache, lookupCache, hb, hpn, ih]
      · by_cases hpn : p.1 = n
        · have hb2 : (p.1 == n) = true := by simp [hpn]
          simp [insertCache, lookupCache, hb, hb2, h]
        · have hb2 : (p.1 == n) = false := by simp [hpn]
          simp [insertCache, lookupCache, hb, hb2, h, ih]

theorem lookupCache_mem (c : List (String × Nat)) (x : String) (i : Nat)
    (h : lookupCache c x = some i) : (x, i) ∈ c := by
  induction c with
  | nil => simp [lookupCache] at h
  | cons p t ih =>
    obtain ⟨p1, p2⟩ := p
    rw [lookupCache] at h
    by_cases hb : p1 = x
    · subst hb
      simp at h
      subst h
      exact List.mem_cons_self _ _
    · have hbf : ((p1, p2).1 == x) = false := by simp [hb]
      rw [hbf] at h
      simp at h
      exact List.mem_cons_of_mem _ (ih h)

theorem mem_insertCache (c : List (String × Nat)) (k : String) (v : Nat)
    (p : String × Nat) (h : p ∈ insertCache c k v) : p = (k, v) ∨ p ∈ c := by
  induction c with
  | nil => simp [insertCache] at h; exact Or.inl h
  | cons q t ih =>
    rw [insertCache] at h
    by_cases hq : q.1 = k
    · have hb : (q.1 == k) = true := by simp [hq]
      rw [hb] at h
      simp at h
      rcases h with h | h
      · exact Or.inl h
      · exact Or.inr (List.mem_cons_of_mem _ h)
    · have hb : (q.1 == k) = false := by simp [hq]
      rw [hb] at h
      simp at h
      rcases h with h | h
      · exact Or.inr (by simp [h])
      · rcases ih h with h1 | h1
        · exact Or.inl h1
        · exact Or.inr (List.mem_cons_of_mem _ h1)

theorem lookupCache_foldl_insert (rs : List RemoteResource) :
    ∀ (c : List (String × Nat)) (n : String) (i : Nat),
    lookupCache c n = some i → (∀ r ∈ rs, r.name = n → r.pk = i) →
    lookupCache (rs.foldl (fun acc r => insertCache acc r.name r.pk) c) n = some i := by
  induction rs with
  | nil => intro c n i h _; simpa using h
  | cons r rest ih =>
    intro c n i h hag
    rw [List.foldl_cons]
    refine ih _ n i ?_ (fun q hq hqn => hag q (List.mem_cons_of_mem _ hq) hqn)
    rw [lookupCache_insert]
    by_cases hn : n = r.name
    · have : r.pk = i := hag r (List.mem_cons_self _ _) hn.symm
      simp [hn, this]
    · simp [hn, h]

theorem mem_foldl_insert (rs : List RemoteResource) :
    ∀ (c : List (String × Nat)) (p : String × Nat),
    p ∈ rs.foldl (fun acc r => insertCache acc r.name r.pk) c →
    p ∈ c ∨ ∃ r ∈ rs, p = (r.name, r.pk) := by
  induction rs with
  | nil => intro c p h; exact Or.inl (by simpa using h)
  | cons r rest ih =>
    intro c p h
    rw [List.foldl_cons] at h
    rcases ih _ p h with h1 | h1
    · rcases mem_insertCache _ _ _ _ h1 with h2 | h2
      · exact Or.inr ⟨r, List.mem_cons_self _ _, h2⟩
      · exact Or.inl h2
    · rcases h1 with ⟨q, hq, hpq⟩
      exact Or.inr ⟨q, List.mem_cons_of_mem _ hq, hpq⟩

/-- The conflict body the modelled API answers on duplicate names is detected by the
substring check of the location seeder. -/
theorem detect_conflict_body :
    detectConflictLoc ("Stock location with this name already exists") = true :=
  of_decide_eq_true (by rfl)


theorem createLocation_eq_auth (st : SeederState) (k : LocKind) (n d : String)
    (pid : Option Nat) (ha : st.api.authOk = false) :
    createLocation st k n d pid =
      ({ st with trace := st.trace ++ [⟨k, n, d, payloadParent pid⟩] }, none) := by
  simp only [createLocation, apiCreate]
  rw [if_pos ha]
  rfl

theorem createLocation_eq_fail (st : SeederState) (k : LocKind) (n d : String)
    (pid : Option Nat) (ha : ¬ st.api.authOk = false)
    (hf : st.api.failNames.contains n = true) :
    createLocation st k n d pid =
      ({ st with trace := st.trace ++ [⟨k, n, d, payloadParent pid⟩] }, none) := by
  simp only [createLocation, apiCreate]
  rw [if_neg ha, if_pos hf]
  rfl

theorem createLocation_eq_conflict (st : SeederState) (k : LocKind) (n d : String)
    (pid : Option Nat) (ha : ¬ st.api.authOk = false)
    (hff : st.api.failNames.contains n = false)
    (hex : st.api.resources.any (fun r => r.name == n) = true) :
    createLocation st k n d pid =
      getExistingLocation
        { st with trace := st.trace ++ [⟨k, n, d, payloadParent pid⟩] } n := by
  simp only [createLocation, apiCreate]
  rw [if_neg ha,
    if_neg (show ¬(st.api.failNames.contains n = true) by simpa using hff), if_pos hex]
  rfl

theorem createLocation_eq_fresh (st : SeederState) (k : LocKind) (n d : String)
    (pid : Option Nat) (ha : ¬ st.api.authOk = false)
    (hff : st.api.failNames.contains n = false)
    (hexf : st.api.resources.any (fun r => r.name == n) = false) :
    createLocation st k n d pid =
      ({ api := { st.api with
            resources := st.api.resources ++ [⟨st.api.nextPk, n, payloadParent pid, d⟩],
            nextPk := st.api.nextPk + 1 },
          cache := insertCache st.cache n st.api.nextPk,
          trace := st.trace ++ [⟨k, n, d, payloadParent pid⟩] },
        some ⟨st.api.nextPk, n, payloadParent pid, d⟩) := by
  simp only [createLocation, apiCreate]
  rw [if_neg ha,
    if_neg (show ¬(st.api.failNames.contains n = true) by simpa using hff),
    if_neg (show ¬(st.api.resources.any (fun r => r.name == n) = true) by simpa using hexf)]
  rfl

theorem createLocation_eq_conflict_found (st : SeederState) (k : LocKind) (n d : String)
    (pid : Option Nat) (ha : ¬ st.api.authOk = false)
    (hff : st.api.failNames.contains n = false)
    (hex : st.api.resources.any (fun r => r.name == n) = true)
    (y : RemoteResource) (ys : List RemoteResource)
    (hfil : st.api.resources.filter (fun r => r.name == n) = y :: ys) :
    createLocation st k n d pid =
      ({ st with
          cache := insertCache st.cache n y.pk
          trace := st.trace ++ [⟨k, n, d, payloadParent pid⟩] }, some y) := by
  rw [createLocation_eq_conflict st k n d pid ha hff hex]
  simp only [getExistingLocation, hfil]

theorem createLocation_cache_persists (st : SeederState) (k : LocKind) (n d : String)
    (pid : Option Nat) (hc : cacheConsistent st) (x : String) (i : Nat)
    (h : lookupCache st.cache x = some i) :
    lookupCache (createLocation st k n d pid).1.cache x = some i := by
  by_cases ha : st.api.authOk = false
  · rw [createLocation_eq_auth st k n d pid ha]
    exact h
  · by_cases hf : st.api.failNames.contains n = true
    · rw [createLocation_eq_fail st k n d pid ha hf]
      exact h
    · have hff : st.api.failNames.contains n = false := by simpa using hf
      by_cases hex : st.api.resources.any (fun r => r.name == n) = true
      · cases hfil : st.api.resources.filter (fun r => r.name == n) with
        | nil =>
          rcases List.any_eq_true.mp hex with ⟨r, hr, hrn⟩
          have hmem : r ∈ st.api.resources.filter (fun r => r.name == n) :=
            List.mem_filter.mpr ⟨hr, hrn⟩
          rw [hfil] at hmem
          simp at hmem
        | cons y ys =>
          have hy : y ∈ st.api.resources.filter (fun r => r.name == n) := by
            rw [hfil]; exact List.mem_cons_self _ _
          have hymem := List.mem_of_mem_filter hy
          have hyname : y.name = n := by simpa using List.of_mem_filter hy
          rw [createLocation_eq_conflict_found st k n d pid ha hff hex y ys hfil]
          show lookupCache (insertCache st.cache n y.pk) x = some i
          rw [lookupCache_insert]
          by_cases hx : x = n
          · have hxm : (x, i) ∈ st.cache := lookupCache_mem _ _ _ h
            obtain ⟨r0, hr0, hr0n, hr0pk⟩ := hc.1 _ hxm
            simp at hr0n hr0pk
            have hyr0 : y = r0 :=
              List.inj_on_of_nodup_map hc.2 hymem hr0 (by rw [hyname, hr0n]; exact hx.symm)
            simp [hx, hyr0, hr0pk]
          · simp [hx, h]
      · have hexf : st.api.resources.any (fun r => r.name == n) = false := by
          simpa using hex
        rw [createLocation_eq_fresh st k n d pid ha hff hexf]
        show lookupCache (insertCache st.cache n st.api.nextPk) x = some i
        rw [lookupCache_insert]
        by_cases hx : x = n
        · exfalso
          have hxm : (x, i) ∈ st.cache := lookupCache_mem _ _ _ h
          obtain ⟨r0, hr0, hr0n, _⟩ := hc.1 _ hxm
          simp at hr0n
          have hany : st.api.resources.any (fun r => r.name == n) = true :=
            List.any_eq_true.mpr ⟨r0, hr0, by simp [hr0n, hx]⟩
          rw [hany] at hexf
          cases hexf
        · simp [hx, h]

theorem createLocation_consistent (st : SeederState) (k : LocKind) (n d : String)
    (pid : Option Nat) (hc : cacheConsistent st) :
    cacheConsistent (createLocation st k n d pid).1 := by
  by_cases ha : st.api.authOk = false
  · rw [createLocation_eq_auth st k n d pid ha]
    exact hc
  · by_cases hf : st.api.failNames.contains n = true
    · rw [createLocation_eq_fail st k n d pid ha hf]
      exact hc
    · have hff : st.api.failNames.contains n = false := by simpa using hf
      by_cases hex : st.api.resources.any (fun r => r.name == n) = true
      · cases hfil : st.api.resources.filter (fun r => r.name == n) with
        | nil =>
          rcases List.any_eq_true.mp hex with ⟨r, hr, hrn⟩
          have hmem : r ∈ st.api.resources.filter (fun r => r.name == n) :=
            List.mem_filter.mpr ⟨hr, hrn⟩
          rw [hfil] at hmem
          simp at hmem
        | cons y ys =>
          have hy : y ∈ st.api.resources.filter (fun r => r.name == n) := by
            rw [hfil]; exact List.mem_cons_self _ _
          have hymem := List.mem_of_mem_filter hy
          have hyname : y.name = n := by simpa using List.of_mem_filter hy
          rw [createLocation_eq_conflict_found st k n d pid ha hff hex y ys hfil]
          refine ⟨?_, hc.2⟩
          intro p hp
          rcases mem_insertCache _ _ _ _ hp with h1 | h1
          · exact ⟨y, hymem, by simp [h1, hyname], by simp [h1]⟩
          · exact hc.1 _ h1
      · have hexf : st.api.resources.any (fun r => r.name == n) = false := by
          simpa using hex
        rw [createLocation_eq_fresh st k n d pid ha hff hexf]
        have hnotin : n ∉ st.api.resources.map (fun r => r.name) := by
          intro hmem
          rcases List.mem_map.mp hmem with ⟨r, hr, hrn⟩
          have hany : st.api.resources.any (fun r => r.name == n) = true :=
            List.any_eq_true.mpr ⟨r, hr, by simp [hrn]⟩
          rw [hany] at hexf
          cases hexf
        refine ⟨?_, ?_⟩
        · intro p hp
          rcases mem_insertCache _ _ _ _ hp with h1 | h1
          · exact ⟨⟨st.api.nextPk, n, payloadParent pid, d⟩, by simp, by simp [h1], by simp [h1]⟩
          · obtain ⟨r0, hr0, hr0n, hr0pk⟩ := hc.1 _ h1
            exact ⟨r0, List.mem_append_left _ hr0, hr0n, hr0pk⟩
        · show ((st.api.resources ++ [(⟨st.api.nextPk, n, payloadParent pid, d⟩ :
            RemoteResource)]).map (fun r => r.name)).Nodup
          rw [List.map_append]
          simp [List.nodup_append, hc.2, hnotin]

theorem runLocCalls_consistent (calls : List LocCall) :
    ∀ st : SeederState, cacheConsistent st → cacheConsistent (runLocCalls st calls) := by
  induction calls with
  | nil => intro st hc; exact hc
  | cons c rest ih =>
    intro st hc
    show cacheConsistent (runLocCalls (createLocation st c.kind c.name c.desc c.parent).1 rest)
    exact ih _ (createLocation_consistent _ _ _ _ _ hc)

theorem runLocCalls_cache_persists (calls : List LocCall) :
    ∀ (st : SeederState) (x : String) (i : Nat), cacheConsistent st →
    lookupCache st.cache x = some i →
    lookupCache (runLocCalls st calls).cache x = some i := by
  induction calls with
  | nil => intro st x i _ h; exact h
  | cons c rest ih =>
    intro st x i hc h
    show lookupCache (runLocCalls (createLocation st c.kind c.name c.desc c.parent).1
      rest).cache x = some i
    exact ih _ x i (createLocation_consistent _ _ _ _ _ hc)
      (createLocation_cache_persists _ _ _ _ _ hc x i h)

theorem partsCreateCategory_eq_hit (pst : PartsState) (n d : String) (i : Nat)
    (hh : lookupCache pst.categories n = some i) :
    partsCreateCategory pst n d = (pst, some i) := by
  simp only [partsCreateCategory, hh]

theorem partsCreateCategory_eq_auth (pst : PartsState) (n d : String)
    (hh : lookupCache pst.categories n = none) (ha : pst.catApi.authOk = false) :
    partsCreateCategory pst n d = (pst, none) := by
  simp only [partsCreateCategory, hh, apiCreate]
  rw [if_pos ha]
  rfl

theorem partsCreateCategory_eq_fail (pst : PartsState) (n d : String)
    (hh : lookupCache pst.categories n = none) (ha : ¬ pst.catApi.authOk = false)
    (hf : pst.catApi.failNames.contains n = true) :
    partsCreateCategory pst n d = (pst, none) := by
  simp only [partsCreateCategory, hh, apiCreate]
  rw [if_neg ha, if_pos hf]
  rfl

theorem partsCreateCategory_eq_conflict (pst : PartsState) (n d : String)
    (hh : lookupCache pst.categories n = none) (ha : ¬ pst.catApi.authOk = false)
    (hff : pst.catApi.failNames.contains n = false)
    (hex : pst.catApi.resources.any (fun r => r.name == n) = true) :
    partsCreateCategory pst n d =
      (loadCategories pst, lookupCache (loadCategories pst).categories n) := by
  simp only [partsCreateCategory, hh, apiCreate]
  rw [if_neg ha,
    if_neg (show ¬(pst.catApi.failNames.contains n = true) by simpa using hff), if_pos hex]
  rfl

theorem partsCreateCategory_eq_fresh (pst : PartsState) (n d : String)
    (hh : lookupCache pst.categories n = none) (ha : ¬ pst.catApi.authOk = false)
    (hff : pst.catApi.failNames.contains n = false)
    (hexf : pst.catApi.resources.any (fun r => r.name == n) = false) :
    partsCreateCategory pst n d =
      ({ pst with
          catApi := { pst.catApi with
            resources := pst.catApi.resources ++ [⟨pst.catApi.nextPk, n, none, d⟩]
            nextPk := pst.catApi.nextPk + 1 }
          categories := insertCache pst.categories n pst.catApi.nextPk },
        some pst.catApi.nextPk) := by
  simp only [partsCreateCategory, hh, apiCreate]
  rw [if_neg ha,
    if_neg (show ¬(pst.catApi.failNames.contains n = true) by simpa using hff),
    if_neg (show ¬(pst.catApi.resources.any (fun r => r.name == n) = true) by
      simpa using hexf)]
  rfl

theorem partsCreatePart_fst (pst : PartsState) (n d : String) (c : Nat) :
    (partsCreatePart pst n d c).1 =
      { pst with partApi := (apiCreate pst.partApi n d (some c)).1 } := by
  simp only [partsCreatePart, apply_ite (f := Prod.fst), ite_self]

theorem loadCategories_cache_persists (pst : PartsState) (x : String) (i : Nat)
    (hc : partsCacheConsistent pst) (h : lookupCache pst.categories x = some i) :
    lookupCache (loadCategories pst).categories x = some i := by
  have hag : ∀ r ∈ pst.catApi.resources, r.name = x → r.pk = i := by
    intro r hr hrn
    have hxm : (x, i) ∈ pst.categories := lookupCache_mem _ _ _ h
    obtain ⟨r0, hr0, hr0n, hr0pk⟩ := hc.1 _ hxm
    simp at hr0n hr0pk
    have hrr0 : r = r0 := List.inj_on_of_nodup_map hc.2 hr hr0 (by rw [hrn, hr0n])
    rw [hrr0, hr0pk]
  show lookupCache (pst.catApi.resources.foldl
    (fun c r => insertCache c r.name r.pk) pst.categories) x = some i
  exact lookupCache_foldl_insert _ _ _ _ h hag

theorem loadCategories_consistent (pst : PartsState) (hc : partsCacheConsistent pst) :
    partsCacheConsistent (loadCategories pst) := by
  refine ⟨?_, hc.2⟩
  intro p hp
  rcases mem_foldl_insert _ _ _ hp with h1 | h1
  · exact hc.1 _ h1
  · rcases h1 with ⟨r, hr, hpr⟩
    exact ⟨r, hr, by simp [hpr], by simp [hpr]⟩

theorem partsCreateCategory_cache_persists (pst : PartsState) (n d : String)
    (hc : partsCacheConsistent pst) (x : String) (i : Nat)
    (h : lookupCache pst.categories x = some i) :
    lookupCache (partsCreateCategory pst n d).1.categories x = some i := by
  cases hh : lookupCache pst.categories n with
  | some j => rw [partsCreateCategory_eq_hit pst n d j hh]; exact h
  | none =>
    by_cases ha : pst.catApi.authOk = false
    · rw [partsCreateCategory_eq_auth pst n d hh ha]; exact h
    · by_cases hf : pst.catApi.failNames.contains n = true
      · rw [partsCreateCategory_eq_fail pst n d hh ha hf]; exact h
      · have hff : pst.catApi.failNames.contains n = false := by simpa using hf
        by_cases hex : pst.catApi.resources.any (fun r => r.name == n) = true
        · rw [partsCreateCategory_eq_conflict pst n d hh ha hff hex]
          exact loadCategories_cache_persists pst x i hc h
        · have hexf : pst.catApi.resources.any (fun r => r.name == n) = false := by
            simpa using hex
          rw [partsCreateCategory_eq_fresh pst n d hh ha hff hexf]
          show lookupCache (insertCache pst.categories n pst.catApi.nextPk) x = some i
          rw [lookupCache_insert]
          by_cases hx : x = n
          · exfalso
            have hxm : (x, i) ∈ pst.categories := lookupCache_mem _ _ _ h
            obtain ⟨r0, hr0, hr0n, _⟩ := hc.1 _ hxm
            simp at hr0n
            have hany : pst.catApi.resources.any (fun r => r.name == n) = true :=
              List.any_eq_true.mpr ⟨r0, hr0, by simp [hr0n, hx]⟩
            rw [hany] at hexf
            cases hexf
          · simp [hx, h]

theorem partsCreateCategory_consistent (pst : PartsState) (n d : String)
    (hc : partsCacheConsistent pst) :
    partsCacheConsistent (partsCreateCategory pst n d).1 := by
  cases hh : lookupCache pst.categories n with
  | some j => rw [partsCreateCategory_eq_hit pst n d j hh]; exact hc
  | none =>
    by_cases ha : pst.catApi.authOk = false
    · rw [partsCreateCategory_eq_auth pst n d hh ha]; exact hc
    · by_cases hf : pst.catApi.failNames.contains n = true
      · rw [partsCreateCategory_eq_fail pst n d hh ha hf]; exact hc
      · have hff : pst.catApi.failNames.contains n = false := by simpa using hf
        by_cases hex : pst.catApi.resources.any (fun r => r.name == n) = true
        · rw [partsCreateCategory_eq_conflict pst n d hh ha hff hex]
          exact loadCategories_consistent pst hc
        · have hexf : pst.catApi.resources.any (fun r => r.name == n) = false := by
            simpa using hex
          rw [partsCreateCategory_eq_fresh pst n d hh ha hff hexf]
          have hnotin : n ∉ pst.catApi.resources.map (fun r => r.name) := by
            intro hmem
            rcases List.mem_map.mp hmem with ⟨r, hr, hrn⟩
            have hany : pst.catApi.resources.any (fun r => r.name == n) = true :=
              List.any_eq_true.mpr ⟨r, hr, by simp [hrn]⟩
            rw [hany] at hexf
            cases hexf
          refine ⟨?_, ?_⟩
          · intro p hp
            rcases mem_insertCache _ _ _ _ hp with h1 | h1
            · exact ⟨⟨pst.catApi.nextPk, n, none, d⟩, by simp, by simp [h1], by simp [h1]⟩
            · obtain ⟨r0, hr0, hr0n, hr0pk⟩ := hc.1 _ h1
              exact ⟨r0, List.mem_append_left _ hr0, hr0n, hr0pk⟩
          · show ((pst.catApi.resources ++ [(⟨pst.catApi.nextPk, n, none, d⟩ :
              RemoteResource)]).map (fun r => r.name)).Nodup
            rw [List.map_append]
            simp [List.nodup_append, hc.2, hnotin]

theorem applyPartsOp_cache_persists (pst : PartsState) (op : PartsOp)
    (hc : partsCacheConsistent pst) (x : String) (i : Nat)
    (h : lookupCache pst.categories x = some i) :
    lookupCache (applyPartsOp pst op).categories x = some i := by
  cases op with
  | load => exact loadCategories_cache_persists pst x i hc h
  | createCategory n d => exact partsCreateCategory_cache_persists pst n d hc x i h
  | createPart n d c =>
    show lookupCache (partsCreatePart pst n d c).1.categories x = some i
    rw [partsCreatePart_fst]
    exact h

theorem applyPartsOp_consistent (pst : PartsState) (op : PartsOp)
    (hc : partsCacheConsistent pst) : partsCacheConsistent (applyPartsOp pst op) := by
  cases op with
  | load => exact loadCategories_consistent pst hc
  | createCategory n d => exact partsCreateCategory_consistent pst n d hc
  | createPart n d c =>
    show partsCacheConsistent (partsCreatePart pst n d c).1
    rw [partsCreatePart_fst]
    exact hc

theorem runPartsOps_cache_persists (ops : List PartsOp) :
    ∀ (pst : PartsState) (x : String) (i : Nat), partsCacheConsistent pst →
    lookupCache pst.categories x = some i →
    lookupCache (runPartsOps pst ops).categories x = some i := by
  induction ops with
  | nil => intro pst x i _ h; exact h
  | cons op rest ih =>
    intro pst x i hc h
    show lookupCache (runPartsOps (applyPartsOp pst op) rest).categories x = some i
    exact ih _ x i (applyPartsOp_consistent pst op hc)
      (applyPartsOp_cache_persists pst op hc x i h)

theorem claim8_cache_monotone :
    (∀ (calls : List LocCall) (st : SeederState) (x : String) (i : Nat),
      cacheConsistent st → lookupCache st.cache x = some i →
      lookupCache (runLocCalls st calls).cache x = some i)
    ∧ (∀ (ops : List PartsOp) (pst : PartsState) (x : String) (i : Nat),
      partsCacheConsistent pst → lookupCache pst.categories x = some i →
      lookupCache (runPartsOps pst ops).categories x = some i) :=
  ⟨fun calls st x i hc h => runLocCalls_cache_persists calls st x i hc h,
   fun ops pst x i hc h => runPartsOps_cache_persists ops pst x i hc h⟩

theorem claim8_witness :
    lookupCache (runLocCalls
      ⟨⟨[⟨1, "Warehouse", none, ""⟩], 2, true, []⟩, [("Warehouse", 1)], []⟩
      [⟨LocKind.zone, "Zone-A", "", some 1⟩, ⟨LocKind.root, "Warehouse", "", none⟩]).cache
      ("Warehouse") = some 1
    ∧ lookupCache (runPartsOps
      ⟨⟨[⟨5, "GPU", none, ""⟩], 6, true, []⟩, initApi [], [("GPU", 5)]⟩
      [PartsOp.load, PartsOp.createCategory ("GPU") (""),
       PartsOp.createPart ("RTX") ("") 5]).categories ("GPU") = some 5 :=
  ⟨claim8_cache_monotone.1 _ _ _ _ (by decide) (by decide),
   claim8_cache_monotone.2 _ _ _ _ (by decide) (by decide)⟩

/-- C1. Idempotence of the seeding run: with the remote API modelled as a state mapping
names to resources (creating an already-present name answers 400 with an already-exists
body), running the warehouse seeding sequence a second time leaves exactly the remote
state the first run produced, the same holds for the tenant seeding sequence, and after a
run every resource name of each kind occurs at most once remotely. -/
theorem claim1_seeding_idempotent :
    warehouseRun2.api = warehouseRun1.api
    ∧ (warehouseRun1.api.resources.map (fun r => r.name)).Nodup
    ∧ tenantSeedRun2.groups = tenantSeedRun1.groups
    ∧ tenantSeedRun2.locations = tenantSeedRun1.locations
    ∧ tenantSeedRun2.nextPk = tenantSeedRun1.nextPk
    ∧ (tenantSeedRun1.locations.map (fun r => r.name)).Nodup
    ∧ (tenantSeedRun1.groups.map (fun r => r.name)).Nodup :=
  of_decide_eq_true (by rfl)

/-- C3. Tree completeness of the warehouse builder: one run issues
(Z·C − 1)·L·2 = 98 A/B bin creation calls plus L = 7 solid shelves in the exempted
power-supply column, 105 bin locations in total, matching ((Z·C − 1)·L·2) + L; every
shelf of a non-exempt column receives exactly two bin children and every shelf of the
exempt column receives none. -/
theorem claim3_tree_completeness :
    binCallCount warehouseRun1.trace = (ZONES.length * COLUMNS_PER_ZONE - 1) * LEVELS * 2
    ∧ exemptShelfCount warehouseRun1 = LEVELS
    ∧ binCallCount warehouseRun1.trace + exemptShelfCount warehouseRun1
      = ((ZONES.length * COLUMNS_PER_ZONE - 1) * LEVELS * 2) + LEVELS
    ∧ ((ZONES.length * COLUMNS_PER_ZONE - 1) * LEVELS * 2) + LEVELS = 105
    ∧ binSplitOk warehouseRun1 = true :=
  of_decide_eq_true (by rfl)

/-- C4. Name determinism: the sequence of names issued by a warehouse run equals the
sequence generated purely from grid positions (columns zone-column, shelves
zone-column-level, bins zone-column-level-A/B, one exempted column), and a second run
over the same compiled-in constants issues the identical sequence in identical order;
likewise for the location names of the tenant script. -/
theorem claim4_name_determinism :
    warehouseRun1.trace.map (fun c => c.name) = warehouseNameSeq
    ∧ warehouseRun2.trace.map (fun c => c.name) = warehouseNameSeq
    ∧ tenantSeedRun1.trace = tenantNameSeq
    ∧ tenantSeedRun2.trace = tenantNameSeq :=
  of_decide_eq_true (by rfl)

/-- C2, counterexample. The claim says every 400 creation response whose body contains
already-exists or unique (case-insensitively) leads to a lookup returning the existing
identifier; but create_location in seed_locations.py only tests for already-exists, so on
a body saying only unique it reports failure (returns None) even though the lookup would
have found the existing resource with pk 7. -/
theorem claim2_counterexample :
    detectConflictFull ("Ensure this field is unique.") = true
    ∧ (createLocationR ("A-1") ⟨400, .err ("Ensure this field is unique.")⟩
        ⟨200, .list [⟨7, "A-1", some 3, ""⟩]⟩ []).2 = .ok none :=
  of_decide_eq_true (by rfl)

/-- C9. Totality of the lookup fallback: on a well-formed 200 lookup response whose body
is a paginated dict with an empty results list, both lookup-by-name helpers index element
0 of an empty list, so they do not return normally (the exception branch is reachable);
hence a uniqueness conflict followed by an empty paginated lookup crashes the upsert
instead of skipping the resource. -/
theorem claim9_empty_lookup_crash :
    getExistingCatR ⟨200, .paged []⟩ = .exn
    ∧ (getExistingLocR ("GPU") ⟨200, .paged []⟩ []).2 = .exn
    ∧ createCategoryR ⟨400, .err ("part category with this name already exists")⟩
        ⟨200, .paged []⟩ = .exn
    ∧ (createLocationR ("Warehouse")
        ⟨400, .err ("Stock location with this name already exists")⟩
        ⟨200, .paged []⟩ []).2 = .exn :=
  of_decide_eq_true (by rfl)

/-- C5, counterexample. The claim says the readiness poll succeeds as soon as a probe
answers an accepted status (200, 401 or 403); but the inline poll of the tenant script accepts
only 200, so on a probe that always answers 401 (accepted per the claim) it makes all 12
attempts and returns failure. -/
theorem claim5_counterexample :
    acceptedStatus 401 = true
    ∧ tenantPoll (fun _ => some 401) = (false, 12, 12) :=
  of_decide_eq_true (by rfl)

/-- C6, counterexample. The claim says an API error on a single resource other than a
uniqueness conflict is never fatal to the whole run and skips only that resource; but
when creating the warehouse root answers 500, seed_warehouse returns False after a single
creation call (nothing else is attempted) and the process exits 1. -/
theorem claim6_counterexample :
    (seedWarehouse (initSeeder [("Warehouse")])).2 = false
    ∧ (seedWarehouse (initSeeder [("Warehouse")])).1.trace.length = 1
    ∧ mainLocationsExit (fun _ => some 200) (initSeeder [("Warehouse")]) = 1 :=
  of_decide_eq_true (by rfl)

/-- C6, amended. An error on a leaf bin skips only that bin and the run completes
(165 calls, 164 resources, success); an error on an internal node (column A-1) skips that
whole subtree of that node, not just the failed resource (its shelf A-1-1 is never attempted;
144 calls, 143 resources), though the run still completes; an error on the warehouse root
is fatal: one call, failure. -/
theorem claim6_error_tolerance_amended :
    ((seedWarehouse (initSeeder [("A-1-1-A")])).2 = true
      ∧ (seedWarehouse (initSeeder [("A-1-1-A")])).1.trace.length = 165
      ∧ (seedWarehouse (initSeeder [("A-1-1-A")])).1.api.resources.length = 164)
    ∧ ((seedWarehouse (initSeeder [("A-1")])).2 = true
      ∧ (seedWarehouse (initSeeder [("A-1")])).1.trace.length = 144
      ∧ (seedWarehouse (initSeeder [("A-1")])).1.api.resources.length = 143
      ∧ (seedWarehouse (initSeeder [("A-1")])).1.trace.any (fun c => c.name == "A-1-1")
        = false)
    ∧ ((seedWarehouse (initSeeder [("Warehouse")])).2 = false
      ∧ (seedWarehouse (initSeeder [("Warehouse")])).1.trace.length = 1) :=
  of_decide_eq_true (by rfl)

end Seeding
